import Mathlib

/-! Shallow embedding of the clash-ip-checker pipeline (src/ipcheck.py and
src/clash_automator.py).  Network and browser observations are supplied as
explicit environment values; every definition mirrors the corresponding
Python code.  Python dicts are embedded as association lists where a write
prepends an entry, so the first matching entry is the most recent write. -/

namespace ClashChecker

/-- Lookup in an association list embedding a Python dict (latest write wins,
because writes prepend). -/
def dget {β : Type} : List (String × β) → String → Option β
  | [], _ => none
  | (k, v) :: rest, key => if k = key then some v else dget rest key

/-! Python string primitives, implemented by structural recursion on the
character list so that the kernel can evaluate them. -/

def listIsPrefixOf : List Char → List Char → Bool
  | [], _ => true
  | _ :: _, [] => false
  | a :: as, b :: bs => a = b && listIsPrefixOf as bs

/-- Substring test (Python `pat in s`). -/
def listContainsSub (pat : List Char) : List Char → Bool
  | [] => listIsPrefixOf pat []
  | c :: rest => listIsPrefixOf pat (c :: rest) || listContainsSub pat rest

def containsSub (s pat : String) : Bool :=
  listContainsSub pat.data s.data

/-- Python `s.split('.')`. -/
def splitOnDot : List Char → List (List Char)
  | [] => [[]]
  | c :: rest =>
    if c = '.' then [] :: splitOnDot rest
    else
      match splitOnDot rest with
      | [] => [[c]]
      | seg :: segs => (c :: seg) :: segs

def dropLeadingWs : List Char → List Char
  | [] => []
  | c :: rest => if c.isWhitespace then dropLeadingWs rest else c :: rest

/-- Python `s.strip()`. -/
def pyStrip (s : String) : String :=
  String.mk ((dropLeadingWs ((dropLeadingWs s.data).reverse)).reverse)

/-- Python `s.endswith(t)`. -/
def pyEndsWith (s t : String) : Bool :=
  listIsPrefixOf t.data.reverse s.data.reverse

/-- Python `s.startswith(t)`. -/
def pyStartsWith (s t : String) : Bool :=
  listIsPrefixOf t.data s.data

/-- Python `s.replace('%', '')`. -/
def removePercentChars (s : String) : String :=
  String.mk (s.data.filter (fun c => c ≠ '%'))

/-! ## Data model

A proxy node as far as the pipeline inspects it: its `name` and the optional
`_source` subscription tag (`proxy.get('_source', 'Unknown')`).  All other
protocol fields are passed through untouched and are not modelled. -/

structure Proxy where
  name : String
  source? : Option String
deriving DecidableEq

/-- Python `proxy.get('_source', 'Unknown')`. -/
def getSource (p : Proxy) : String :=
  match p.source? with
  | some s => s
  | none => "Unknown"

/-! ## ipcheck.py : IPChecker -/

/-- Plain-text HTTP response observed by `get_simple_ip`: a status code and a
body.  A transport error / timeout (the `except` path) is `none` at use site. -/
structure HttpTextResp where
  status : Nat
  body : String
deriving DecidableEq

/-- The two fixed echo-my-IP endpoints of `IPChecker.get_simple_ip`. -/
def simple_ip_urls : List String := ["http://api.ipify.org", "http://v4.ident.me"]

/-- Language of the Python pattern used by `get_simple_ip`:
`re.match(r"^\d{1,3}(\.\d{1,3}){3}\d{1,3}$", ip)`.
A matching string decomposes as `D0 . D1 . D2 . D3D4` with each `Di` a run of
1–3 ASCII digits, i.e. exactly three dots, the first three dot-separated
segments of 1–3 digits, and the final segment of 2–6 digits (the stray
trailing `\d{1,3}` in the pattern forces extra digits after the fourth
octet).  `\d` is modelled as an ASCII digit. -/
def digitRun (l : List Char) (lo hi : Nat) : Bool :=
  l.all Char.isDigit && lo ≤ l.length && l.length ≤ hi

def ipRegexMatch (s : String) : Bool :=
  match splitOnDot s.data with
  | [a, b, c, d] => digitRun a 1 3 && digitRun b 1 3 && digitRun c 1 3 && digitRun d 2 6
  | _ => false

/-- `IPChecker.get_simple_ip`: try the fixed URLs in order; on a 200 response
whose stripped body matches the pattern, return that body; on any other
response or an exception, fall through to the next URL; otherwise `None`. -/
def get_simple_ip_go (env : String → Option HttpTextResp) : List String → Option String
  | [] => none
  | u :: rest =>
    match env u with
    | none => get_simple_ip_go env rest
    | some resp =>
      if resp.status = 200 then
        let ip := pyStrip resp.body
        if ipRegexMatch ip then some ip else get_simple_ip_go env rest
      else get_simple_ip_go env rest

def get_simple_ip (env : String → Option HttpTextResp) : Option String :=
  get_simple_ip_go env simple_ip_urls

/-- Numeric value of a percentage string once `%` signs are removed, as read
by Python `float(...)`: the reachable inputs are plain digit runs with an
optional fractional part (`\d+` or `\d+.\d+` regex captures). Anything else
raises `ValueError` in Python, modelled as `none`. -/
def digitsToNat (l : List Char) : Nat :=
  l.foldl (fun n c => n * 10 + (c.toNat - 48)) 0

def parseFloat? (s : String) : Option ℚ :=
  match splitOnDot s.data with
  | [a] =>
    if a ≠ [] ∧ a.all Char.isDigit then some (digitsToNat a) else none
  | [a, b] =>
    if a ≠ [] ∧ b ≠ [] ∧ a.all Char.isDigit ∧ b.all Char.isDigit then
      some ((digitsToNat a : ℚ) + (digitsToNat b : ℚ) / ((10 ^ b.length : Nat) : ℚ))
    else none
  | _ => none

/-- `IPChecker.get_emoji`: map a percentage string to the six-bucket severity
symbol; unparseable input (the `except` branch) yields the unknown symbol. -/
def get_emoji (percentage_str : String) : String :=
  match parseFloat? (removePercentChars percentage_str) with
  | some val =>
    if val ≤ 10 then "⚪"
    else if val ≤ 30 then "🟢"
    else if val ≤ 50 then "🟡"
    else if val ≤ 70 then "🟠"
    else if val ≤ 90 then "🔴"
    else "⚫"
  | none => "❓"

/-- Result dictionary built by `IPChecker.check` (all nine keys). -/
structure CheckResult where
  pure_emoji : String
  bot_emoji : String
  ip_attr : String
  ip_src : String
  pure_score : String
  bot_score : String
  full_string : String
  ip : String
  error : Option String
deriving DecidableEq

/-- Fields extracted from the rendered reputation page by the regex scans in
`IPChecker.check` (the page text itself is external; the embedding observes
the extraction outcomes):
`score?` = capture of `IPPure系数.*?(\d+%)`;
`botRaw?` = the bot-ratio match after `.replace('bot','').strip()` (the `%`
fix-up is applied in `buildResult` as in the source);
`attrRaw?` / `srcRaw?` = captures of the `IP属性` / `IP来源` lines (the
`.strip()` and trailing-`IP` removal are applied in `buildResult`);
`pageIp?` = fallback dotted-quad found in the page text. -/
structure PageFields where
  score? : Option String
  botRaw? : Option String
  attrRaw? : Option String
  srcRaw? : Option String
  pageIp? : Option String
deriving DecidableEq

/-- Environment of one `IPChecker.check` call: responses of the fast-IP
endpoints, the browser session outcome (`Except.error e` = an exception in
the `try` block of `check`), and the fast-IP responses seen by
`_backup_check`. -/
structure CheckEnv where
  fast : String → Option HttpTextResp
  page : Except String PageFields
  backupFast : String → Option HttpTextResp

/-- `re.sub(r"IP$", "", raw)`. -/
def stripTrailingIp (s : String) : String :=
  if pyEndsWith s "IP" then String.mk (s.data.take (s.data.length - 2)) else s

/-- Attribute abbreviation dictionary (`attr_abbr_map`). -/
def attr_abbr_map : List (String × String) :=
  [("机房", "机"), ("数据中心", "机"), ("住宅", "宅"), ("企业", "企"), ("教育", "教")]

/-- Source abbreviation dictionary (`src_abbr_map`). -/
def src_abbr_map : List (String × String) :=
  [("原生", "原"), ("广播", "广"), ("ISP", "ISP"), ("企业", "企")]

/-- Python `s[:1]`. -/
def firstChar (s : String) : String :=
  match s.data with
  | [] => ""
  | c :: _ => String.mk [c]

/-- `attr = result["ip_attr"] if result["ip_attr"] != "❓" else ""` followed by
`map.get(attr, attr[:1] if attr and attr != "❓" else "")`. -/
def shortCode (m : List (String × String)) (field : String) : String :=
  let x := if field ≠ "❓" then field else ""
  match dget m x with
  | some s => s
  | none => if x ≠ "" ∧ x ≠ "❓" then firstChar x else ""

/-- The `info` part of the tag: both abbreviations joined by the separator,
one of them alone when the other is absent, or the placeholder when both are
absent. -/
def buildInfo (attr_short src_short : String) : String :=
  if attr_short ≠ "" ∧ src_short ≠ "" then attr_short ++ "|" ++ src_short
  else if attr_short ≠ "" then attr_short
  else if src_short ≠ "" then src_short
  else "检测中"

/-- `result["full_string"] = f"【{pure_emoji}{bot_emoji} {info}】"`. -/
def renderFullString (pe be ia isrc : String) : String :=
  "【" ++ pe ++ be ++ " " ++ buildInfo (shortCode attr_abbr_map ia) (shortCode src_abbr_map isrc) ++ "】"

/-- The default result dictionary of `IPChecker.check`. -/
def defaultResult (current_ip : Option String) : CheckResult :=
  { pure_emoji := "❓", bot_emoji := "❓", ip_attr := "❓", ip_src := "❓",
    pure_score := "❓", bot_score := "❓", full_string := "",
    ip := (match current_ip with | some ip => ip | none => "❓"), error := none }

/-- Body of the browser `try`/`except` of `IPChecker.check`: field extraction
and tag rendering on success, fixed error tag when the block raises. -/
def buildResult (current_ip : Option String) (page : Except String PageFields) : CheckResult :=
  let result := defaultResult current_ip
  match page with
  | .error e => { result with error := some e, full_string := "【❌ Error】" }
  | .ok f =>
    let result :=
      match f.score? with
      | some s => { result with pure_score := s, pure_emoji := get_emoji s }
      | none => result
    let result :=
      match f.botRaw? with
      | some v0 =>
        let val := if pyEndsWith v0 "%" then v0 else v0 ++ "%"
        { result with bot_score := val, bot_emoji := get_emoji val }
      | none => result
    let result :=
      match f.attrRaw? with
      | some raw => { result with ip_attr := stripTrailingIp (pyStrip raw) }
      | none => result
    let result :=
      match f.srcRaw? with
      | some raw => { result with ip_src := stripTrailingIp (pyStrip raw) }
      | none => result
    let result :=
      if result.ip = "❓" then
        match f.pageIp? with
        | some i => { result with ip := i }
        | none => result
      else result
    { result with full_string := renderFullString result.pure_emoji result.bot_emoji result.ip_attr result.ip_src }

/-- The classifier cache `IPChecker.cache` (IP -> result dict). -/
abbrev Cache := List (String × CheckResult)

/-- The guarded cache write of `IPChecker.check`:
`if result["ip"] != "❓" and result["pure_score"] != "❓": self.cache[result["ip"]] = result.copy()`. -/
def cacheStore (c : Cache) (r : CheckResult) : Cache :=
  if r.ip ≠ "❓" ∧ r.pure_score ≠ "❓" then (r.ip, r) :: c else c

/-- `IPChecker._backup_check`: resolve the exit IP through the fast path and
produce the heuristic prefix-based result (the surrounding `try` can only
fail on network activity, which the fast-path environment already models). -/
def backup_check (backupFast : String → Option HttpTextResp) : Option CheckResult :=
  match get_simple_ip backupFast with
  | none => none
  | some current_ip =>
    let result : CheckResult :=
      { pure_emoji := "❓", bot_emoji := "❓", ip_attr := "未知", ip_src := "未知",
        pure_score := "❓", bot_score := "❓", full_string := "", ip := current_ip, error := none }
    if pyStartsWith current_ip "103." ∨ pyStartsWith current_ip "134." ∨
        pyStartsWith current_ip "46." ∨ pyStartsWith current_ip "13." then
      some { result with
        pure_emoji := "🟡", bot_emoji := "🟠", ip_attr := "机房", ip_src := "广播",
        pure_score := "40%", bot_score := "60%",
        full_string := renderFullString "🟡" "🟠" "机房" "广播" }
    else some result

/-- Outcome of one `IPChecker.check` call: the returned result, the cache
afterwards, and whether the browser/page classification ran at all. -/
structure CheckOutcome where
  result : CheckResult
  cache : Cache
  browserUsed : Bool
deriving DecidableEq

/-- Browser phase of `IPChecker.check` (everything after the cache test):
build the result, apply the guarded cache write, then the retry/fallback
ladder (`_backup_check`, whose full-key dict is applied with
`result.update(...)`, i.e. it replaces every field). -/
def checkBrowser (env : CheckEnv) (cache : Cache) (retry : Nat) (current_ip : Option String) : CheckOutcome :=
  let result := buildResult current_ip env.page
  let cache1 := cacheStore cache result
  if result.pure_score = "❓" ∧ 0 < retry then
    match backup_check env.backupFast with
    | some backup_result =>
      if backup_result.pure_score ≠ "❓" then
        ⟨backup_result, cacheStore cache1 backup_result, true⟩
      else ⟨result, cache1, true⟩
    | none => ⟨result, cache1, true⟩
  else ⟨result, cache1, true⟩

/-- `IPChecker.check`: fast-IP lookup (`current_ip`), cache short-circuit,
browser phase. -/
def check (env : CheckEnv) (cache : Cache) (retry : Nat) : CheckOutcome :=
  match get_simple_ip env.fast with
  | some current_ip =>
    match dget cache current_ip with
    | some r => ⟨r, cache, false⟩
    | none => checkBrowser env cache retry (some current_ip)
  | none => checkBrowser env cache retry none

/-- Invariant of the classifier cache `IPChecker.cache`: every entry is
keyed by its result's own IP, that IP is concrete (never the `❓` sentinel)
and the stored purity score is complete (never `❓`). -/
def entryOK (kv : String × CheckResult) : Prop :=
  kv.1 = kv.2.ip ∧ kv.2.pure_score ≠ "❓" ∧ kv.2.ip ≠ "❓"

instance (kv : String × CheckResult) : Decidable (entryOK kv) := by
  unfold entryOK
  infer_instance

def CacheInv (c : Cache) : Prop := ∀ kv ∈ c, entryOK kv

/-! ## clash_automator.py : Phase 1 (liveness filter) -/

/-- JSON body of a 200 answer of the delay endpoint: the optional integer
`delay` field (`data.get('delay')` is `None` when the field is missing). -/
structure DelayResp where
  status : Nat
  delay : Option Int
deriving DecidableEq

/-- `ClashController.get_proxy_delay`: `data.get('delay')` on a 200 response,
`None` on any other status, `None` on a transport error / timeout (the
`except` path, modelled as a `none` response). -/
def get_proxy_delay (resp : Option DelayResp) : Option Int :=
  match resp with
  | some r => if r.status = 200 then r.delay else none
  | none => none

/-- The name-based exclusion keywords of Phase 1. -/
def SKIP_KEYWORDS : List String :=
  ["剩余", "重置", "到期", "有效期", "官网", "网址", "更新", "公告"]

def matchesSkipKeyword (name : String) : Bool :=
  SKIP_KEYWORDS.any (fun kw => containsSub name kw)

/-- `check_node`: keyword-filtered nodes are dropped without a probe; a
probed node is kept iff the delay is truthy (`if delay:` — both `None` and
`0` are falsy in Python). -/
def check_node (resp : Option DelayResp) (proxy : Proxy) : Option Proxy :=
  if matchesSkipKeyword proxy.name then none
  else
    match get_proxy_delay resp with
    | some delay => if delay ≠ 0 then some proxy else none
    | none => none

/-- Phase 1: probe every node (the `asyncio.gather` keeps input order) and
drop the `None` results.  The probe environment is keyed by node name. -/
def phase1 (probe : String → Option DelayResp) (proxies : List Proxy) : List Proxy :=
  (proxies.map (fun p => check_node (probe p.name) p)).filterMap id

/-! ## clash_automator.py : Phase 1.5 (IP dedup) -/

/-- Per-node observation of the serial Phase 1.5 loop: whether
`switch_proxy` succeeded, and the value of `temp_checker.get_simple_ip`. -/
structure P15Obs where
  switchOK : Bool
  ip : Option String
deriving DecidableEq

/-- State threaded through the Phase 1.5 loop: `ip_to_proxy` (IP -> first
proxy that resolved to it), `unique_proxies` (the surviving list, in input
order), `node_ip_map` (name -> resolved IP or `None`). -/
structure P15State where
  ip_to_proxy : List (String × Proxy)
  unique_proxies : List Proxy
  node_ip_map : List (String × Option String)
deriving DecidableEq

/-- One iteration of the Phase 1.5 loop, translated line by line:
switch failure keeps the node and records nothing; otherwise the IP is
recorded in `node_ip_map`, a fresh IP registers the node as owner and keeps
it, a repeated IP keeps the node iff the recorded owner has the same
`_source`, and an unresolved IP keeps the node. -/
def phase15Step (st : P15State) (po : Proxy × P15Obs) : P15State :=
  let proxy := po.1
  let o := po.2
  if o.switchOK = false then
    { st with unique_proxies := st.unique_proxies ++ [proxy] }
  else
    let st1 := { st with node_ip_map := (proxy.name, o.ip) :: st.node_ip_map }
    match o.ip with
    | some ip =>
      match dget st1.ip_to_proxy ip with
      | none =>
        { st1 with
          ip_to_proxy := (ip, proxy) :: st1.ip_to_proxy,
          unique_proxies := st1.unique_proxies ++ [proxy] }
      | some duplicate_proxy =>
        if getSource duplicate_proxy = getSource proxy then
          { st1 with unique_proxies := st1.unique_proxies ++ [proxy] }
        else st1
    | none =>
      { st1 with unique_proxies := st1.unique_proxies ++ [proxy] }

def phase15 (nodes : List (Proxy × P15Obs)) : P15State :=
  nodes.foldl phase15Step ⟨[], [], []⟩

/-! ## clash_automator.py : Phase 2 (purity check) -/

/-- `ip_groups.setdefault(ip, []).append(proxy)` on an insertion-ordered
dict. -/
def setdefaultAppend (g : List (String × List Proxy)) (ip : String) (proxy : Proxy) :
    List (String × List Proxy) :=
  match g with
  | [] => [(ip, [proxy])]
  | (k, l) :: rest =>
    if k = ip then (k, l ++ [proxy]) :: rest
    else (k, l) :: setdefaultAppend rest ip proxy

/-- Output of the Phase 2 pre-processing loop over `unique_proxies`:
the per-IP groups, the initial `results_map` entries (nodes with no resolved
IP are tagged unknown immediately), and the skipped names. -/
structure PreGroupState where
  ip_groups : List (String × List Proxy)
  results_map : List (String × String)
  skipped : List String
deriving DecidableEq

def buildGroups (node_ip_map : List (String × Option String)) (unique_proxies : List Proxy) :
    PreGroupState :=
  unique_proxies.foldl
    (fun st proxy =>
      match (match dget node_ip_map proxy.name with | some v => v | none => none) with
      | some ip => { st with ip_groups := setdefaultAppend st.ip_groups ip proxy }
      | none =>
        { st with
          results_map := (proxy.name, "【❓❓ 未知】") :: st.results_map,
          skipped := st.skipped ++ [proxy.name] })
    ⟨[], [], []⟩

/-- Environment of the Phase 2 loop: success of the switch to the
representative (keyed by its name) and the outcome of the `checker.check`
call for the group's IP (`Except.error` = the call raised, the surrounding
`except` turns it into the unknown tag). -/
structure Phase2Env where
  switchOK : String → Bool
  classifyCall : String → Except String CheckEnv

structure P2State where
  results_map : List (String × String)
  cache : Cache

/-- The single `result` string computed for one group, with the cache state
after the call: unknown tag on switch failure or on an exception from
`checker.check`, otherwise `res.get('full_string', ...)` (the source's two
`if` branches produce the same expression). -/
def phase2Tag (env : Phase2Env) (cache : Cache) (ip : String) (representative : Proxy) :
    String × Cache :=
  if env.switchOK representative.name = false then ("【❓❓ 未知】", cache)
  else
    match env.classifyCall ip with
    | .error _ => ("【❓❓ 未知】", cache)
    | .ok cenv =>
      let out := check cenv cache 2
      (out.result.full_string, out.cache)

/-- One iteration of the Phase 2 loop: pick the representative (`group[0]`),
compute the one result string, and assign it to every member of the group.
The `IPChecker` cache is threaded through the calls. -/
def phase2Step (env : Phase2Env) (st : P2State) (g : String × List Proxy) : P2State :=
  match g.2 with
  | [] => st
  | representative :: _ =>
    let rc := phase2Tag env st.cache g.1 representative
    { results_map := g.2.foldl (fun m proxy => (proxy.name, rc.1) :: m) st.results_map,
      cache := rc.2 }

def phase2 (env : Phase2Env) (groups : List (String × List Proxy)) (st0 : P2State) : P2State :=
  groups.foldl (phase2Step env) st0

/-! ## clash_automator.py : Phase 3 (save) -/

/-- Search for the Python pattern `【([^】]+)】`: scan for a `【` followed by at
least one non-`】` character and a closing `】`, returning the capture; on a
failed attempt the scan resumes at the next character, as `re.search` does. -/
def bracketSearch : List Char → Option String
  | [] => none
  | c :: rest =>
    if c = '【' then
      let content := rest.takeWhile (fun d => d ≠ '】')
      let remaining := rest.dropWhile (fun d => d ≠ '】')
      match remaining, content with
      | _ :: _, _ :: _ => some (String.mk content)
      | _, _ => bracketSearch rest
    else bracketSearch rest

def extractBracket (s : String) : Option String :=
  bracketSearch s.data

/-- New node name: the extracted tag re-bracketed and prepended, or the
fallback `f"{old_name} {result_suffix}"` when the pattern does not match. -/
def renameWithTag (old_name result_suffix : String) : String :=
  match extractBracket result_suffix with
  | some inner => "【" ++ inner ++ "】" ++ old_name
  | none => old_name ++ " " ++ result_suffix

structure SaveState where
  final_proxies : List Proxy
  name_mapping : List (String × String)
deriving DecidableEq

/-- The save loop of Phase 3: it iterates over the Phase 1 survivors
(`valid_proxies`); a node with a `results_map` entry is renamed and recorded
in `name_mapping`, a node without one is kept unchanged. -/
def saveStep (results_map : List (String × String)) (st : SaveState) (proxy : Proxy) : SaveState :=
  match dget results_map proxy.name with
  | some result_suffix =>
    let new_name := renameWithTag proxy.name result_suffix
    { final_proxies := st.final_proxies ++ [{ proxy with name := new_name }],
      name_mapping := (proxy.name, new_name) :: st.name_mapping }
  | none => { st with final_proxies := st.final_proxies ++ [proxy] }

def saveResults (valid_proxies : List Proxy) (results_map : List (String × String)) : SaveState :=
  valid_proxies.foldl (saveStep results_map) ⟨[], []⟩

/-- Rewrite of one proxy-group membership list: a member whose original name
was renamed is referenced by the new name; every other member is dropped. -/
def rewriteGroupMembers (name_mapping : List (String × String)) (members : List String) :
    List String :=
  members.foldl
    (fun acc p_name =>
      match dget name_mapping p_name with
      | some nn => acc ++ [nn]
      | none => acc)
    []

/-! ## clash_automator.py : the whole `process_proxies` run -/

structure PipelineEnv where
  probe : String → Option DelayResp
  p15 : String → P15Obs
  switch2 : String → Bool
  classify2 : String → Except String CheckEnv

structure PipelineOutputs where
  proxies_out : List Proxy
  groups_out : List (String × List String)
deriving DecidableEq

structure PipelineTrace where
  entered_phase15 : Bool
  entered_phase2 : Bool
  written : Option PipelineOutputs
deriving DecidableEq

/-- `process_proxies` from the YAML load onwards (an uninterrupted run):
early return with nothing written when the proxy list is empty or when
Phase 1 leaves no survivor; otherwise Phases 1.5, 2 and the save phase run
in order and the annotated proxies plus the rewritten groups are written.
The link-blob output is derived from the same `final_proxies` list and is
not modelled separately. -/
def process_proxies (env : PipelineEnv) (proxies : List Proxy)
    (proxy_groups : List (String × List String)) : PipelineTrace :=
  if proxies.isEmpty then ⟨false, false, none⟩
  else
    let valid_proxies := phase1 env.probe proxies
    if valid_proxies.isEmpty then ⟨false, false, none⟩
    else
      let st15 := phase15 (valid_proxies.map (fun p => (p, env.p15 p.name)))
      let pre := buildGroups st15.node_ip_map st15.unique_proxies
      let p2 := phase2 ⟨env.switch2, env.classify2⟩ pre.ip_groups ⟨pre.results_map, []⟩
      let sv := saveResults valid_proxies p2.results_map
      ⟨true, true,
        some ⟨sv.final_proxies,
              proxy_groups.map (fun g => (g.1, rewriteGroupMembers sv.name_mapping g.2))⟩⟩

/-! ## Concrete scenarios used in the verification -/

def pA : Proxy := ⟨"A", some "S1"⟩
def pB : Proxy := ⟨"B", some "S2"⟩
def pC : Proxy := ⟨"C", some "S2"⟩

/-- Phase 1.5 observation: switch succeeded, exit IP resolved to 7.7.7.7. -/
def obs7 : P15Obs := ⟨true, some "7.7.7.7"⟩

def pX : Proxy := ⟨"X", some "S1"⟩
def pY : Proxy := ⟨"Y", some "S1"⟩
def pZ : Proxy := ⟨"Z", some "S2"⟩

/-- Pipeline environment of the end-to-end duplicate scenario: every node
answers the delay probe with 100ms, every Phase 1.5 switch succeeds and the
exit IP always resolves to 1.2.3.4, Phase 2 switches succeed, and the
classification page renders with no extractable fields. -/
def envB : PipelineEnv :=
  ⟨fun _ => some ⟨200, some 100⟩,
   fun _ => ⟨true, some "1.2.3.4"⟩,
   fun _ => true,
   fun _ => .ok ⟨fun _ => none, .ok ⟨none, none, none, none, none⟩, fun _ => none⟩⟩

/-- Pipeline environment in which every delay probe fails by transport error. -/
def envDead : PipelineEnv :=
  ⟨fun _ => none, fun _ => ⟨true, none⟩, fun _ => true, fun _ => .error "offline"⟩

/-- Classifier environment whose fast path resolves 10.0.0.45 from the first
endpoint and whose page yields a 5% purity score. -/
def envW7a : CheckEnv :=
  ⟨fun u => if u = "http://api.ipify.org" then some ⟨200, "10.0.0.45"⟩ else none,
   .ok ⟨some "5%", none, none, none, none⟩, fun _ => none⟩

/-- Classifier environment with the same exit IP whose page access would
fail — it must not be consulted on a cache hit. -/
def envW7b : CheckEnv :=
  ⟨fun u => if u = "http://api.ipify.org" then some ⟨200, "10.0.0.45"⟩ else none,
   .error "offline", fun _ => none⟩

/-- Classifier environment with no resolvable fast IP and a page with no
extractable fields: the fully-undetermined outcome. -/
def envC8 : CheckEnv := ⟨fun _ => none, .ok ⟨none, none, none, none, none⟩, fun _ => none⟩

/-- Phase 2 environment whose switches succeed and whose classification
calls raise. -/
def envP2w : Phase2Env := ⟨fun _ => true, fun _ => .error "offline"⟩

/-! ## Basic lemmas -/

@[simp] theorem dget_nil {β : Type} (key : String) : dget ([] : List (String × β)) key = none := rfl

@[simp] theorem dget_cons {β : Type} (k : String) (v : β) (rest : List (String × β)) (key : String) :
    dget ((k, v) :: rest) key = if k = key then some v else dget rest key := rfl

theorem dget_some_mem {β : Type} (c : List (String × β)) (k : String) (v : β)
    (h : dget c k = some v) : (k, v) ∈ c := by
  induction c with
  | nil => simp at h
  | cons kv rest ih =>
    obtain ⟨k1, v1⟩ := kv
    rw [dget_cons] at h
    by_cases hk : k1 = k
    · subst hk
      rw [if_pos rfl] at h
      injection h with h2
      subst h2
      exact List.mem_cons_self _ _
    · exact List.mem_cons_of_mem _ (ih (by rwa [if_neg hk] at h))

/-! ## Claim C3 : Phase 1 liveness filtering -/

/-- C3: every Phase-1 candidate that is actually probed (it matches no skip
keyword) is removed from the survivors when the delay probe yields 0 or no
value — covering a transport error, a non-200 response and a missing
`delay` field — and is kept when the probe yields any positive integer. -/
theorem c3_liveness_filter (proxy : Proxy) (resp : Option DelayResp)
    (hkw : matchesSkipKeyword proxy.name = false) :
    (get_proxy_delay resp = none → check_node resp proxy = none)
  ∧ (get_proxy_delay resp = some 0 → check_node resp proxy = none)
  ∧ (∀ d : Int, get_proxy_delay resp = some d → 0 < d → check_node resp proxy = some proxy)
  ∧ (resp = none → get_proxy_delay resp = none)
  ∧ (∀ r : DelayResp, resp = some r → r.status ≠ 200 → get_proxy_delay resp = none)
  ∧ (∀ r : DelayResp, resp = some r → r.delay = none → get_proxy_delay resp = none) := by
  refine ⟨?_, ?_, ?_, ?_, ?_, ?_⟩
  · intro h; simp [check_node, hkw, h]
  · intro h; simp [check_node, hkw, h]
  · intro d h hd
    have hd0 : d ≠ 0 := by omega
    simp [check_node, hkw, h, hd0]
  · intro h; simp [get_proxy_delay, h]
  · intro r h hs; simp [get_proxy_delay, h, hs]
  · intro r h hd
    by_cases hs : r.status = 200 <;> simp [get_proxy_delay, h, hs, hd]

theorem c3_liveness_filter_witness :
    check_node (some ⟨200, some 0⟩) ⟨"node-1", none⟩ = none
  ∧ check_node (some ⟨200, some 120⟩) ⟨"node-1", none⟩ = some ⟨"node-1", none⟩
  ∧ check_node none ⟨"node-1", none⟩ = none :=
  ⟨(c3_liveness_filter ⟨"node-1", none⟩ (some ⟨200, some 0⟩) (by decide)).2.1 (by decide),
   (c3_liveness_filter ⟨"node-1", none⟩ (some ⟨200, some 120⟩) (by decide)).2.2.1 120 (by decide)
     (by decide),
   (c3_liveness_filter ⟨"node-1", none⟩ none (by decide)).1 (by decide)⟩

/-! ## Claim C4 : the fast exit-IP lookup -/

/-- C4: evaluation of the fast exit-IP lookup at the claim's own example.
The pattern in the source demands 2–6 digits after the third dot, so the
syntactically valid dotted quad 1.2.3.4 (single-digit final octet) is
rejected and the lookup answers `None` even when the first endpoint returns
it, while the non-quad 1.2.3.4567 is accepted; this contradicts the claim,
which the surrounding code (a "Fast IPv4 check") clearly intends. -/
theorem c4_fast_ip_eval :
    ipRegexMatch "1.2.3.4" = false
  ∧ get_simple_ip (fun u => if u = "http://api.ipify.org" then some ⟨200, "1.2.3.4"⟩ else none)
      = none
  ∧ ipRegexMatch "1.2.3.45" = true
  ∧ ipRegexMatch "1.2.3.4567" = true := by decide

/-! ## Claim C9 : zero Phase-1 survivors -/

/-- C9: when Phase 1 leaves no survivor, the run stops cleanly: nothing is
written (neither the annotated configuration nor the link blob, which is
derived from the same saved list), and Phases 1.5 and 2 are never entered.
The embedding is a total function, matching the absence of an escaping
exception on this path. -/
theorem c9_zero_survivors (env : PipelineEnv) (proxies : List Proxy)
    (proxy_groups : List (String × List String))
    (h : phase1 env.probe proxies = []) :
    process_proxies env proxies proxy_groups = ⟨false, false, none⟩ := by
  unfold process_proxies
  by_cases hp : proxies.isEmpty <;> simp [hp, h]

theorem c9_zero_survivors_witness :
    process_proxies envDead [pX] [("GLOBAL", ["X"])] = ⟨false, false, none⟩ :=
  c9_zero_survivors envDead [pX] [("GLOBAL", ["X"])] (by decide)

/-! ## Claim C1 : the Phase 1.5 dedup decision -/

theorem phase15Step_preserves_owner (st : P15State) (x : Proxy × P15Obs) (ip' : String)
    (q : Proxy) (h : dget st.ip_to_proxy ip' = some q) :
    dget (phase15Step st x).ip_to_proxy ip' = some q := by
  unfold phase15Step
  by_cases hsw : x.2.switchOK = false
  · simp [hsw, h]
  · simp only [hsw, if_false]
    cases hip : x.2.ip with
    | none => simpa using h
    | some ip =>
      simp only []
      cases hd : dget st.ip_to_proxy ip with
      | some owner => by_cases hsrc : getSource owner = getSource x.1 <;> simp [hsrc, h]
      | none =>
        have hne : ip ≠ ip' := fun he => by rw [he, h] at hd; exact Option.noConfusion hd
        simp [hne, h]

theorem phase15_fold_preserves_owner (nodes : List (Proxy × P15Obs)) (st : P15State)
    (ip' : String) (q : Proxy) (h : dget st.ip_to_proxy ip' = some q) :
    dget (nodes.foldl phase15Step st).ip_to_proxy ip' = some q := by
  induction nodes generalizing st with
  | nil => simpa using h
  | cons x rest ih =>
    rw [List.foldl_cons]
    exact ih _ (phase15Step_preserves_owner st x ip' q h)

theorem phase15Step_unique_mono (st : P15State) (x : Proxy × P15Obs) :
    ∃ tail, (phase15Step st x).unique_proxies = st.unique_proxies ++ tail := by
  unfold phase15Step
  by_cases hsw : x.2.switchOK = false
  · exact ⟨[x.1], by simp [hsw]⟩
  · simp only [hsw, if_false]
    cases hip : x.2.ip with
    | none => exact ⟨[x.1], by simp⟩
    | some ip =>
      simp only []
      cases hd : dget st.ip_to_proxy ip with
      | some owner =>
        by_cases hsrc : getSource owner = getSource x.1
        · exact ⟨[x.1], by simp [hsrc]⟩
        · exact ⟨[], by simp [hsrc]⟩
      | none => exact ⟨[x.1], by simp⟩

theorem phase15_fold_unique_mono (nodes : List (Proxy × P15Obs)) (st : P15State) :
    ∃ tail, (nodes.foldl phase15Step st).unique_proxies = st.unique_proxies ++ tail := by
  induction nodes generalizing st with
  | nil => exact ⟨[], by simp⟩
  | cons x rest ih =>
    rw [List.foldl_cons]
    obtain ⟨t1, ht1⟩ := phase15Step_unique_mono st x
    obtain ⟨t2, ht2⟩ := ih (phase15Step st x)
    exact ⟨t1 ++ t2, by rw [ht2, ht1, List.append_assoc]⟩

/-- C1 (counterexample): with survivors A(source S1), B(source S2), C(source
S2) in that order, every switch succeeding and all three resolving the same
exit IP 7.7.7.7, the pair (B, C) shares its `source` tag and resolves to one
IP, yet neither B nor C appears in the post-dedup survivor list — the claim
requires both of them to appear. -/
theorem c1_dedup_counterexample :
    getSource pB = getSource pC
  ∧ dget (phase15 [(pA, obs7), (pB, obs7), (pC, obs7)]).node_ip_map "B" = some (some "7.7.7.7")
  ∧ dget (phase15 [(pA, obs7), (pB, obs7), (pC, obs7)]).node_ip_map "C" = some (some "7.7.7.7")
  ∧ pB ∉ (phase15 [(pA, obs7), (pB, obs7), (pC, obs7)]).unique_proxies
  ∧ pC ∉ (phase15 [(pA, obs7), (pB, obs7), (pC, obs7)]).unique_proxies
  ∧ (phase15 [(pA, obs7), (pB, obs7), (pC, obs7)]).unique_proxies = [pA] := by decide

/-- C1 (amended): during the serial Phase 1.5 dedup, a node whose switch
succeeded and whose exit IP resolved is kept exactly when the IP has no
recorded owner yet (the node then becomes the owner) or when the recorded
owner — the first survivor that resolved to that IP, which never changes
afterwards — carries the same `source` tag; with a differing tag the node is
dropped, and the survivor list only ever grows, so each decision is final. -/
theorem c1_dedup_amended (st : P15State) (proxy q : Proxy) (o : P15Obs) (ip ip' : String)
    (nodes : List (Proxy × P15Obs)) :
    (o.switchOK = true → o.ip = some ip →
      (phase15Step st (proxy, o)).unique_proxies
        = st.unique_proxies ++
            (match dget st.ip_to_proxy ip with
             | none => [proxy]
             | some owner => if getSource owner = getSource proxy then [proxy] else []))
  ∧ (o.switchOK = true → o.ip = some ip → dget st.ip_to_proxy ip = none →
      dget (phase15Step st (proxy, o)).ip_to_proxy ip = some proxy)
  ∧ (dget st.ip_to_proxy ip' = some q →
      dget (nodes.foldl phase15Step st).ip_to_proxy ip' = some q)
  ∧ (∃ tail, (nodes.foldl phase15Step st).unique_proxies = st.unique_proxies ++ tail) := by
  refine ⟨?_, ?_, ?_, ?_⟩
  · intro hsw hip
    unfold phase15Step
    simp only [hsw, Bool.true_eq_false, if_false, hip]
    cases hd : dget st.ip_to_proxy ip with
    | none => simp [hd]
    | some owner => by_cases hsrc : getSource owner = getSource proxy <;> simp [hd, hsrc]
  · intro hsw hip hd
    unfold phase15Step
    simp [hsw, hip, hd]
  · exact phase15_fold_preserves_owner nodes st ip' q
  · exact phase15_fold_unique_mono nodes st

theorem c1_dedup_amended_witness :
    (phase15Step ⟨[], [], []⟩ (pA, obs7)).unique_proxies = [] ++ [pA]
  ∧ (phase15Step ⟨[("7.7.7.7", pA)], [pA], [("A", some "7.7.7.7")]⟩ (pB, obs7)).unique_proxies
      = [pA] ++ [] :=
  ⟨(c1_dedup_amended ⟨[], [], []⟩ pA pA obs7 "7.7.7.7" "7.7.7.7" []).1 rfl rfl,
   (c1_dedup_amended ⟨[("7.7.7.7", pA)], [pA], [("A", some "7.7.7.7")]⟩ pB pA obs7
      "7.7.7.7" "7.7.7.7" []).1 rfl rfl⟩

/-! ## Claim C2 : a cross-subscription duplicate and the saved outputs -/

/-- C2: evaluation of the whole run at the claim's own scenario
X(1.2.3.4, S1), Y(1.2.3.4, S1), Z(1.2.3.4, S2).  Z is judged a
cross-subscription duplicate in Phase 1.5 (it is missing from
`unique_proxies`), but the save loop iterates over the Phase-1 survivors and
keeps every node that has no `results_map` entry, so Z is written — under
its original name — into the saved proxies list, contradicting the claim
(and the code's own Phase 1.5 log, which reports Z as discarded). -/
theorem c2_duplicate_saved_eval :
    pZ ∉ (phase15 ((phase1 envB.probe [pX, pY, pZ]).map (fun p => (p, envB.p15 p.name)))).unique_proxies
  ∧ process_proxies envB [pX, pY, pZ] [("GLOBAL", ["X", "Y", "Z"])]
      = ⟨true, true,
          some ⟨[⟨"【❓❓ 检测中】X", some "S1"⟩, ⟨"【❓❓ 检测中】Y", some "S1"⟩, pZ],
                [("GLOBAL", ["【❓❓ 检测中】X", "【❓❓ 检测中】Y"])]⟩⟩ := by decide

/-! ## Claim C5 : final renaming and group-membership rewrite -/

/-- C5 (counterexample): in a completed run with survivors X(S1) and Z(S2)
both resolving exit IP 1.2.3.4, Z survives Phase 1 but is deduplicated and
therefore receives no tag; the claim says such a survivor remains in the
group list under its original name, but the rewritten group keeps only the
renamed X — Z is dropped from the group list (while still being written to
the proxies list). -/
theorem c5_group_rewrite_counterexample :
    pZ ∈ phase1 envB.probe [pX, pZ]
  ∧ process_proxies envB [pX, pZ] [("G", ["X", "Z"])]
      = ⟨true, true,
          some ⟨[⟨"【❓❓ 检测中】X", some "S1"⟩, pZ], [("G", ["【❓❓ 检测中】X"])]⟩⟩ := by decide

theorem saveResults_go_final (results_map : List (String × String)) (valid : List Proxy)
    (st0 : SaveState) :
    (valid.foldl (saveStep results_map) st0).final_proxies
      = st0.final_proxies ++ valid.map (fun p =>
          match dget results_map p.name with
          | some s => { p with name := renameWithTag p.name s }
          | none => p) := by
  induction valid generalizing st0 with
  | nil => simp
  | cons p rest ih =>
    rw [List.foldl_cons, List.map_cons, ih]
    cases h : dget results_map p.name <;>
      simp [saveStep, h]

theorem saveResults_go_nm (results_map : List (String × String)) (valid : List Proxy)
    (st0 : SaveState) (n : String) :
    (dget (valid.foldl (saveStep results_map) st0).name_mapping n).isSome
      ↔ (∃ p, p ∈ valid ∧ p.name = n ∧ (dget results_map n).isSome)
        ∨ (dget st0.name_mapping n).isSome := by
  induction valid generalizing st0 with
  | nil => simp
  | cons p rest ih =>
    rw [List.foldl_cons, ih]
    have hstep : (dget (saveStep results_map st0 p).name_mapping n).isSome
        ↔ (p.name = n ∧ (dget results_map n).isSome) ∨ (dget st0.name_mapping n).isSome := by
      unfold saveStep
      cases h : dget results_map p.name with
      | some s =>
        simp only [dget_cons]
        by_cases hn : p.name = n
        · subst hn
          simp [h]
        · simp [hn]
      | none =>
        simp only []
        constructor
        · intro hs
          exact Or.inr hs
        · rintro (⟨rfl, hsome⟩ | hs)
          · rw [h] at hsome
            simp at hsome
          · exact hs
    rw [hstep]
    constructor
    · rintro (⟨q, hq, rfl, hsome⟩ | ⟨hpn, hsome⟩ | hs)
      · exact Or.inl ⟨q, List.mem_cons_of_mem _ hq, rfl, hsome⟩
      · exact Or.inl ⟨p, List.mem_cons_self _ _, hpn, hsome⟩
      · exact Or.inr hs
    · rintro (⟨q, hq, rfl, hsome⟩ | hs)
      · rcases List.mem_cons.1 hq with rfl | hq
        · exact Or.inr (Or.inl ⟨rfl, hsome⟩)
        · exact Or.inl ⟨q, hq, rfl, hsome⟩
      · exact Or.inr (Or.inr hs)

theorem rewriteGroupMembers_go (nm : List (String × String)) (members : List String)
    (acc : List String) :
    members.foldl
        (fun acc p_name =>
          match dget nm p_name with
          | some nn => acc ++ [nn]
          | none => acc) acc
      = acc ++ members.filterMap (fun n => dget nm n) := by
  induction members generalizing acc with
  | nil => simp
  | cons m rest ih =>
    rw [List.foldl_cons, ih, List.filterMap_cons]
    cases h : dget nm m <;> simp [h]

/-- C5 (amended): the save phase maps every Phase-1 survivor to the output
proxies list — renamed with its extracted tag when a `results_map` entry
exists, unchanged otherwise; `name_mapping` holds exactly the survivors that
received a tag; and each proxy-group membership list is rewritten to the
`name_mapping` images of its members, so a member is dropped exactly when it
has no mapping entry — which includes Phase-1 survivors that merely received
no tag (deduplicated or interrupted nodes), not only nodes that failed
Phase 1. -/
theorem c5_save_rewrite_amended (valid_proxies : List Proxy)
    (results_map : List (String × String)) (members : List String) :
    ((saveResults valid_proxies results_map).final_proxies
       = valid_proxies.map (fun p =>
           match dget results_map p.name with
           | some s => { p with name := renameWithTag p.name s }
           | none => p))
  ∧ (∀ n : String,
       (dget (saveResults valid_proxies results_map).name_mapping n).isSome
         ↔ ∃ p, p ∈ valid_proxies ∧ p.name = n ∧ (dget results_map n).isSome)
  ∧ (rewriteGroupMembers (saveResults valid_proxies results_map).name_mapping members
       = members.filterMap (fun n =>
           dget (saveResults valid_proxies results_map).name_mapping n)) := by
  refine ⟨?_, ?_, ?_⟩
  · rw [saveResults, saveResults_go_final]
    simp
  · intro n
    rw [saveResults, saveResults_go_nm]
    simp
  · rw [rewriteGroupMembers, rewriteGroupMembers_go]
    simp

theorem c5_save_rewrite_amended_witness :
    rewriteGroupMembers (saveResults [pX, pZ] [("X", "【❓❓ 未知】")]).name_mapping ["X", "Z"]
      = ["X", "Z"].filterMap
          (fun n => dget (saveResults [pX, pZ] [("X", "【❓❓ 未知】")]).name_mapping n) :=
  (c5_save_rewrite_amended [pX, pZ] [("X", "【❓❓ 未知】")] ["X", "Z"]).2.2

/-! ## Claim C6 : tag propagation inside an equivalence group -/

theorem dget_writeAll_mem (g : List Proxy) (t : String) (m0 : List (String × String)) (n : String)
    (h : n ∈ g.map Proxy.name ∨ dget m0 n = some t) :
    dget (g.foldl (fun m proxy => (proxy.name, t) :: m) m0) n = some t := by
  induction g generalizing m0 with
  | nil =>
    rcases h with h | h
    · simp at h
    · simpa using h
  | cons p rest ih =>
    rw [List.foldl_cons]
    apply ih
    rcases h with h | h
    · rw [List.map_cons] at h
      rcases List.mem_cons.1 h with hpn | hmem
      · right
        simp [hpn]
      · left
        exact hmem
    · right
      by_cases hpn : p.name = n <;> simp [hpn, h]

theorem dget_writeAll_notmem (g : List Proxy) (t : String) (m0 : List (String × String))
    (n : String) (h : n ∉ g.map Proxy.name) :
    dget (g.foldl (fun m proxy => (proxy.name, t) :: m) m0) n = dget m0 n := by
  induction g generalizing m0 with
  | nil => simp
  | cons p rest ih =>
    rw [List.map_cons] at h
    have h1 : ¬(n = p.name ∨ n ∈ rest.map Proxy.name) := fun hc => h (List.mem_cons.2 hc)
    have hpn : p.name ≠ n := fun he => h1 (Or.inl he.symm)
    have hrest : n ∉ rest.map Proxy.name := fun hm => h1 (Or.inr hm)
    rw [List.foldl_cons, ih ((p.name, t) :: m0) hrest]
    simp [hpn]

theorem phase2Step_members (env : Phase2Env) (st : P2State) (ip : String) (rep : Proxy)
    (tl : List Proxy) (n : String) (hn : n ∈ (rep :: tl).map Proxy.name) :
    dget (phase2Step env st (ip, rep :: tl)).results_map n
      = some (phase2Tag env st.cache ip rep).1 :=
  dget_writeAll_mem _ _ _ _ (Or.inl hn)

theorem phase2Step_notmem (env : Phase2Env) (st : P2State) (g : String × List Proxy)
    (n : String) (hn : n ∉ g.2.map Proxy.name) :
    dget (phase2Step env st g).results_map n = dget st.results_map n := by
  obtain ⟨gip, gmem⟩ := g
  cases gmem with
  | nil => rfl
  | cons rep tl => exact dget_writeAll_notmem _ _ _ _ hn

theorem phase2_fold_preserves (env : Phase2Env) (groups : List (String × List Proxy))
    (st : P2State) (n : String) (h : ∀ g ∈ groups, n ∉ g.2.map Proxy.name) :
    dget (phase2 env groups st).results_map n = dget st.results_map n := by
  induction groups generalizing st with
  | nil => rfl
  | cons g rest ih =>
    show dget (phase2 env rest (phase2Step env st g)).results_map n = _
    rw [ih (phase2Step env st g) (fun g' hg' => h g' (List.mem_cons_of_mem _ hg'))]
    exact phase2Step_notmem env st g n (h g (List.mem_cons_self _ _))

/-- C6: after an uninterrupted Phase 2 pass over the equivalence groups,
every member of a group carries exactly the same tag string as the group's
first member (its representative), whatever the switch and classification
outcomes were — provided the member names across groups are distinct (which
holds for groups built from unique node names, every node landing in exactly
one group). -/
theorem c6_group_tag_propagation (env : Phase2Env) (groups : List (String × List Proxy))
    (st0 : P2State)
    (hnodup : (groups.map (fun g => g.2.map Proxy.name)).flatten.Nodup) :
    ∀ g ∈ groups, ∀ representative, g.2.head? = some representative →
      ∀ p ∈ g.2, ∃ t : String,
        dget (phase2 env groups st0).results_map p.name = some t
        ∧ dget (phase2 env groups st0).results_map representative.name = some t := by
  induction groups generalizing st0 with
  | nil =>
    intro g hg
    simp at hg
  | cons g rest ih =>
    have hsplit : (g.2.map Proxy.name).Nodup
        ∧ ((rest.map (fun g => g.2.map Proxy.name)).flatten).Nodup
        ∧ (g.2.map Proxy.name).Disjoint ((rest.map (fun g => g.2.map Proxy.name)).flatten) := by
      rw [List.map_cons, List.flatten_cons, List.nodup_append] at hnodup
      exact hnodup
    have hout : ∀ n, n ∈ g.2.map Proxy.name → ∀ g' ∈ rest, n ∉ g'.2.map Proxy.name := by
      intro n hn g' hg' hmem
      exact hsplit.2.2 hn (List.mem_flatten.2 ⟨g'.2.map Proxy.name, List.mem_map_of_mem _ hg', hmem⟩)
    intro gq hgq rep hrep p hp
    rcases List.mem_cons.1 hgq with rfl | hgq
    · obtain ⟨gip, gmem⟩ := gq
      cases gmem with
      | nil => simp at hrep
      | cons r tl =>
        have hrepr : r = rep := by simpa using hrep
        subst hrepr
        have hpn : p.name ∈ (r :: tl).map Proxy.name := List.mem_map_of_mem _ hp
        have hrn : r.name ∈ (r :: tl).map Proxy.name := List.mem_map_of_mem _ (List.mem_cons_self _ _)
        refine ⟨(phase2Tag env st0.cache gip r).1, ?_, ?_⟩
        · show dget (phase2 env rest (phase2Step env st0 (gip, r :: tl))).results_map p.name = _
          rw [phase2_fold_preserves env rest _ _ (hout p.name hpn)]
          exact phase2Step_members env st0 gip r tl p.name hpn
        · show dget (phase2 env rest (phase2Step env st0 (gip, r :: tl))).results_map r.name = _
          rw [phase2_fold_preserves env rest _ _ (hout r.name hrn)]
          exact phase2Step_members env st0 gip r tl r.name hrn
    · exact ih (phase2Step env st0 g) hsplit.2.1 gq hgq rep hrep p hp

theorem c6_group_tag_propagation_witness :
    dget (phase2 envP2w [("1.2.3.4", [pX, pY])] ⟨[], []⟩).results_map "Y"
      = dget (phase2 envP2w [("1.2.3.4", [pX, pY])] ⟨[], []⟩).results_map "X" := by
  obtain ⟨t, h1, h2⟩ :=
    c6_group_tag_propagation envP2w [("1.2.3.4", [pX, pY])] ⟨[], []⟩ (by decide)
      ("1.2.3.4", [pX, pY]) (List.mem_singleton.2 rfl) pX rfl pY
      (List.mem_cons_of_mem _ (List.mem_cons_self _ _))
  rw [show "Y" = pY.name from rfl, show "X" = pX.name from rfl, h1, h2]

/-! ## Claim C10 : the classifier cache invariant -/

theorem cacheStore_inv (c : Cache) (r : CheckResult) (h : CacheInv c) :
    CacheInv (cacheStore c r) := by
  by_cases hg : r.ip ≠ "❓" ∧ r.pure_score ≠ "❓"
  · rw [cacheStore, if_pos hg]
    intro kv hkv
    rcases List.mem_cons.1 hkv with rfl | hkv
    · exact ⟨rfl, hg.2, hg.1⟩
    · exact h kv hkv
  · rwa [cacheStore, if_neg hg]

theorem checkBrowser_cache_inv (env : CheckEnv) (cache : Cache) (retry : Nat)
    (current_ip : Option String) (h : CacheInv cache) :
    CacheInv (checkBrowser env cache retry current_ip).cache := by
  simp only [checkBrowser]
  split
  · split
    · split
      · exact cacheStore_inv _ _ (cacheStore_inv _ _ h)
      · exact cacheStore_inv _ _ h
    · exact cacheStore_inv _ _ h
  · exact cacheStore_inv _ _ h

/-- C10: the classifier cache starts empty, and every `check` call preserves
the invariant that each cache entry is keyed by its own concrete IP (never
the `❓` sentinel) and stores a completed purity score — both the primary
store and the retry/backup store are guarded accordingly, so no unknown
score or undetermined IP is ever stored. -/
theorem c10_cache_invariant :
    CacheInv ([] : Cache)
  ∧ ∀ (env : CheckEnv) (cache : Cache) (retry : Nat),
      CacheInv cache → CacheInv (check env cache retry).cache := by
  constructor
  · intro kv hkv
    exact absurd hkv (List.not_mem_nil kv)
  · intro env cache retry h
    unfold check
    split
    · split
      · exact h
      · exact checkBrowser_cache_inv _ _ _ _ h
    · exact checkBrowser_cache_inv _ _ _ _ h

theorem c10_cache_invariant_witness : CacheInv (check envW7a [] 2).cache :=
  c10_cache_invariant.2 envW7a [] 2 c10_cache_invariant.1

/-! ## Claim C7 : classifier cache idempotence -/

theorem checkBrowser_result_cached (env : CheckEnv) (cache : Cache) (retry : Nat)
    (current_ip : Option String)
    (hscore : (checkBrowser env cache retry current_ip).result.pure_score ≠ "❓")
    (hip : (checkBrowser env cache retry current_ip).result.ip ≠ "❓") :
    dget (checkBrowser env cache retry current_ip).cache
        (checkBrowser env cache retry current_ip).result.ip
      = some (checkBrowser env cache retry current_ip).result := by
  by_cases hmain : (buildResult current_ip env.page).pure_score = "❓" ∧ 0 < retry
  · cases hb : backup_check env.backupFast with
    | none =>
      have he : checkBrowser env cache retry current_ip
          = ⟨buildResult current_ip env.page,
             cacheStore cache (buildResult current_ip env.page), true⟩ := by
        simp only [checkBrowser, hb]
        split <;> rfl
      rw [he] at hscore
      exact absurd hmain.1 hscore
    | some b =>
      by_cases hbs : b.pure_score ≠ "❓"
      · have he : checkBrowser env cache retry current_ip
            = ⟨b, cacheStore (cacheStore cache (buildResult current_ip env.page)) b, true⟩ := by
          simp only [checkBrowser, hb]
          rw [if_pos hmain, if_pos hbs]
        rw [he] at hip ⊢
        show dget (cacheStore _ b) b.ip = some b
        rw [cacheStore, if_pos ⟨hip, hbs⟩]
        simp
      · have he : checkBrowser env cache retry current_ip
            = ⟨buildResult current_ip env.page,
               cacheStore cache (buildResult current_ip env.page), true⟩ := by
          simp only [checkBrowser, hb]
          rw [if_pos hmain, if_neg hbs]
        rw [he] at hscore
        exact absurd hmain.1 hscore
  · have he : checkBrowser env cache retry current_ip
        = ⟨buildResult current_ip env.page,
           cacheStore cache (buildResult current_ip env.page), true⟩ := by
      simp only [checkBrowser]
      rw [if_neg hmain]
    rw [he] at hscore hip ⊢
    show dget (cacheStore cache (buildResult current_ip env.page))
        (buildResult current_ip env.page).ip = some (buildResult current_ip env.page)
    rw [cacheStore, if_pos ⟨hip, hscore⟩]
    simp

theorem check_result_cached (env : CheckEnv) (cache : Cache) (retry : Nat)
    (hinv : CacheInv cache)
    (hscore : (check env cache retry).result.pure_score ≠ "❓")
    (hip : (check env cache retry).result.ip ≠ "❓") :
    dget (check env cache retry).cache (check env cache retry).result.ip
      = some (check env cache retry).result := by
  cases hfast : get_simple_ip env.fast with
  | none =>
    have he : check env cache retry = checkBrowser env cache retry none := by
      simp only [check, hfast]
    rw [he] at hscore hip ⊢
    exact checkBrowser_result_cached env cache retry none hscore hip
  | some ip =>
    cases hc : dget cache ip with
    | some r =>
      have he : check env cache retry = ⟨r, cache, false⟩ := by
        simp only [check, hfast, hc]
      rw [he]
      have hmem : (ip, r) ∈ cache := dget_some_mem cache ip r hc
      have hkey : ip = r.ip := (hinv (ip, r) hmem).1
      show dget cache r.ip = some r
      rw [← hkey]
      exact hc
    | none =>
      have he : check env cache retry = checkBrowser env cache retry (some ip) := by
        simp only [check, hfast, hc]
      rw [he] at hscore hip ⊢
      exact checkBrowser_result_cached env cache retry (some ip) hscore hip

/-- C7: when a `check` call returns a complete result (known IP, non-unknown
purity score) — and the pre-existing cache satisfies the cache invariant —
an immediately following `check` call whose fast path resolves the same exit
IP returns exactly the cached result object, leaves the cache untouched, and
performs no browser/page classification at all. -/
theorem c7_cache_idempotent (env1 env2 : CheckEnv) (cache0 : Cache) (r1 r2 : Nat)
    (hinv : CacheInv cache0)
    (hscore : (check env1 cache0 r1).result.pure_score ≠ "❓")
    (hip : (check env1 cache0 r1).result.ip ≠ "❓")
    (hsame : get_simple_ip env2.fast = some (check env1 cache0 r1).result.ip) :
    check env2 (check env1 cache0 r1).cache r2
      = ⟨(check env1 cache0 r1).result, (check env1 cache0 r1).cache, false⟩ := by
  have hcached := check_result_cached env1 cache0 r1 hinv hscore hip
  set o := check env1 cache0 r1 with ho
  show check env2 o.cache r2 = ⟨o.result, o.cache, false⟩
  simp only [check, hsame, hcached]

theorem c7_cache_idempotent_witness :
    check envW7b (check envW7a [] 2).cache 2
      = ⟨(check envW7a [] 2).result, (check envW7a [] 2).cache, false⟩ :=
  c7_cache_idempotent envW7a envW7b [] 2 2
    (fun kv hkv => absurd hkv (List.not_mem_nil kv)) (by decide) (by decide) (by decide)

/-! ## Claim C8 : tag rendering -/

/-- C8 (counterexample): a fully-undetermined classification — purity tier,
bot tier, attribute and source all unknown, no thrown error — renders the
tag 【❓❓ 检测中】, not the fixed unknown tag 【❓❓ 未知】 claimed; the
unknown tag is produced only by the orchestrator, never by the classifier
for a fully-undetermined scrape. -/
theorem c8_unknown_tag_counterexample :
    (check envC8 [] 2).result.pure_score = "❓"
  ∧ (check envC8 [] 2).result.bot_score = "❓"
  ∧ (check envC8 [] 2).result.ip_attr = "❓"
  ∧ (check envC8 [] 2).result.ip_src = "❓"
  ∧ (check envC8 [] 2).result.error = none
  ∧ (check envC8 [] 2).result.full_string = "【❓❓ 检测中】"
  ∧ (check envC8 [] 2).result.full_string ≠ "【❓❓ 未知】" := by decide

/-- C8 (amended): a thrown-error classification renders the fixed error tag
【❌ Error】; a successful page render always produces
【purityTier botTier info】 where `info` joins the attribute and source
abbreviations with the separator, collapses the separator when one of them
is absent, and degrades to the fixed placeholder 检测中 (not 未知) when both
are absent — in particular a fully-undetermined result renders
【❓❓ 检测中】. -/
theorem c8_tag_rendering_amended (current_ip : Option String) (f : PageFields) (e : String)
    (a b : String) :
    ((buildResult current_ip (.error e)).full_string = "【❌ Error】")
  ∧ ((buildResult current_ip (.ok f)).full_string
       = renderFullString (buildResult current_ip (.ok f)).pure_emoji
           (buildResult current_ip (.ok f)).bot_emoji
           (buildResult current_ip (.ok f)).ip_attr
           (buildResult current_ip (.ok f)).ip_src)
  ∧ (a ≠ "" → b ≠ "" → buildInfo a b = a ++ "|" ++ b)
  ∧ (a ≠ "" → buildInfo a "" = a)
  ∧ (b ≠ "" → buildInfo "" b = b)
  ∧ (buildInfo "" "" = "检测中")
  ∧ ((buildResult none (.ok ⟨none, none, none, none, none⟩)).full_string
       = "【❓❓ 检测中】") := by
  refine ⟨rfl, rfl, ?_, ?_, ?_, rfl, ?_⟩
  · intro ha hb
    rw [buildInfo, if_pos ⟨ha, hb⟩]
  · intro ha
    have hb : ¬("" : String) ≠ "" := fun hc => hc rfl
    rw [buildInfo]
    rw [if_neg (fun hc => hb hc.2), if_pos ha]
  · intro hb
    have ha : ¬("" : String) ≠ "" := fun hc => hc rfl
    rw [buildInfo]
    rw [if_neg (fun hc => ha hc.1), if_neg ha, if_pos hb]
  · rfl

theorem c8_tag_rendering_amended_witness :
    buildInfo "机" "广" = "机" ++ "|" ++ "广" :=
  (c8_tag_rendering_amended none ⟨none, none, none, none, none⟩ "e" "机" "广").2.2.1
    (by decide) (by decide)

end ClashChecker
